import Mathlib

/-!
Verification of the environmental-monitoring dashboard (src/app.py).

The embedding models the decision logic of the source: the reading
store (the air and water dataframes), the threshold constants that
appear in the rendering code (PM2.5 above 35, pH outside 6.5 to 8.5,
SO2 above 20), the per-station status check, the compliance banding
loop, the alert-generation block, and the leftover-variable behaviour
of the synthetic-data generator.  Sensor values are rationals; the
source compares floats with the same strict/non-strict comparisons.
-/

/-- Status tag produced by the per-station classification
(app.py lines 216-222 render POOR or GOOD; a metric with no rule is
unclassified per the spec). -/
inductive Status
  | Good
  | Poor
  | Unclassified
deriving DecidableEq, Repr

/-- Compliance band of the Compliance Status loop (app.py lines 290-296):
safe card, middle warning card, needs-improvement card. -/
inductive Band
  | NeedsImprovement
  | PartiallyCompliant
  | Compliant
deriving DecidableEq, Repr

/-- Measurement domain. -/
inductive Domain
  | air
  | water
  | biodiversity
deriving DecidableEq, Repr

/-- Metric columns of the air and water dataframes (app.py lines 93-102
and 121-130). -/
inductive Metric
  | pm25
  | pm10
  | so2
  | no2
  | o3
  | co
  | ph
  | dissolvedOxygen
  | bod
  | cod
  | turbidity
  | heavyMetals
deriving DecidableEq, Repr

/-- Alert severity (spec section 3; the source uses a red 🚨 or a yellow ⚠️
marker in the alert text). -/
inductive Severity
  | warning
  | critical
deriving DecidableEq, Repr

/-- Modelled from the spec: a ThresholdRule with an optional lower bound,
an optional upper bound and a severity (spec section 3).  The source has
no rule record; its bound constants appear inline at app.py lines 219,
303 (35 for PM2.5), 183 (6.5 and 8.5 for pH) and 307 (20 for SO2). -/
structure ThresholdRule where
  min : Option ℚ
  max : Option ℚ
  severity : Severity
deriving DecidableEq, Repr

/-- Lower pH bound 6.5 (app.py lines 183, 233, 305). -/
def phMin : ℚ := mkRat 13 2

/-- Upper pH bound 8.5 (app.py lines 183, 234). -/
def phMax : ℚ := mkRat 17 2

/-- PM2.5 rule: upper bound 35 (app.py lines 219 and 303). -/
def pm25Rule : ThresholdRule := ⟨none, some 35, Severity.critical⟩

/-- pH rule: bounds 6.5 and 8.5 (app.py lines 183, 233-234, 305). -/
def phRule : ThresholdRule := ⟨some phMin, some phMax, Severity.critical⟩

/-- SO2 rule: upper bound 20, warning level (app.py line 307). -/
def so2Rule : ThresholdRule := ⟨none, some 20, Severity.warning⟩

/-- Modelled from the spec: the threshold registry lookup
(spec section 4.2); returns none for every metric without a bound in
the source. -/
def ruleFor (d : Domain) (m : Metric) : Option ThresholdRule :=
  match d, m with
  | Domain.air, Metric.pm25 => some pm25Rule
  | Domain.air, Metric.so2 => some so2Rule
  | Domain.water, Metric.ph => some phRule
  | _, _ => none

/-- The value exceeds the rule's upper bound (strict, as in the
source's comparisons). -/
def exceedsMax (r : ThresholdRule) (v : ℚ) : Bool :=
  match r.max with
  | some m => decide (m < v)
  | none => false

/-- The value is below the rule's lower bound (strict). -/
def belowMin (r : ThresholdRule) (v : ℚ) : Bool :=
  match r.min with
  | some m => decide (v < m)
  | none => false

/-- The value breaches the rule on either side. -/
def violatesRule (r : ThresholdRule) (v : ℚ) : Bool :=
  exceedsMax r v || belowMin r v

/-- Modelled from the spec: classify one reading value against an
optional rule (spec section 4.3).  The source instantiates this at
app.py line 219 (PM2.5 against 35) and line 183 (pH against 6.5/8.5);
agreement with those instances is proved below. -/
def classify (rule? : Option ThresholdRule) (v : ℚ) : Status :=
  match rule? with
  | none => Status.Unclassified
  | some r => if violatesRule r v then Status.Poor else Status.Good

/-- Per-station air status of the Current Air Quality Status loop
(app.py lines 218-222): POOR when PM2.5 is above 35, otherwise GOOD. -/
def airStationStatus (pm25 : ℚ) : Status :=
  if 35 < pm25 then Status.Poor else Status.Good

/-- Water pH alert test of the executive summary (app.py line 183):
alert when the pH is below 6.5 or above 8.5. -/
def phIsAlert (ph : ℚ) : Bool :=
  decide (ph < phMin) || decide (phMax < ph)

/-- Compliance banding of the Compliance Status loop (app.py lines
290-296): rate at least 90 is the safe card, at least 75 the middle
card, otherwise the warning card. -/
def complianceBand (r : ℚ) : Band :=
  if 90 ≤ r then Band.Compliant
  else if 75 ≤ r then Band.PartiallyCompliant
  else Band.NeedsImprovement

/-- Rank of a band in the order NeedsImprovement < PartiallyCompliant
< Compliant. -/
def bandRank : Band → Nat
  | Band.NeedsImprovement => 0
  | Band.PartiallyCompliant => 1
  | Band.Compliant => 2

/-- One row of the air dataframe (app.py lines 93-102). -/
structure AirReading where
  date : Nat
  station : String
  pm25 : ℚ
  pm10 : ℚ
  so2 : ℚ
  no2 : ℚ
  o3 : ℚ
  co : ℚ
deriving DecidableEq, Repr

/-- One row of the water dataframe (app.py lines 121-130). -/
structure WaterReading where
  date : Nat
  waterBody : String
  ph : ℚ
  dissolvedOxygen : ℚ
  bod : ℚ
  cod : ℚ
  turbidity : ℚ
  heavyMetals : ℚ
deriving DecidableEq, Repr

/-- The reading store: the full air and water dataframes the alert
block scans (app.py lines 303-307 filter the whole frames, not just
the latest date). -/
structure Store where
  airData : List AirReading
  waterData : List WaterReading
deriving DecidableEq, Repr

/-- Some air reading in the store has PM2.5 above 35
(app.py line 303). -/
def hasHighPM (s : Store) : Bool :=
  s.airData.any fun r => decide (35 < r.pm25)

/-- Some water reading in the store has pH below 6.5
(app.py line 305). -/
def hasLowPH (s : Store) : Bool :=
  s.waterData.any fun r => decide (r.ph < phMin)

/-- Some air reading in the store has SO2 above 20
(app.py line 307). -/
def hasHighSO2 (s : Store) : Bool :=
  s.airData.any fun r => decide (20 < r.so2)

/-- Alert message appended when PM2.5 exceeds 35 (app.py line 304). -/
def pmAlertMsg : String := "🚨 HIGH PM2.5 levels detected in Industrial Area"

/-- Alert message appended when pH is under 6.5 (app.py line 306). -/
def phAlertMsg : String := "🚨 LOW pH levels detected in Canal Industrial"

/-- Alert message appended when SO2 exceeds 20 (app.py line 308). -/
def so2AlertMsg : String := "⚠️ Elevated SO2 levels in multiple stations"

/-- The alert-generation block (app.py lines 302-308): starting from an
empty list, append the PM2.5 alert if any air reading has PM2.5 above
35, then the pH alert if any water reading has pH below 6.5, then the
SO2 alert if any air reading has SO2 above 20. -/
def evaluate (s : Store) : List String :=
  (if hasHighPM s then [pmAlertMsg] else []) ++
  (if hasLowPH s then [phAlertMsg] else []) ++
  (if hasHighSO2 s then [so2AlertMsg] else [])

/-- Fixed success message of the no-alerts branch (app.py line 314). -/
def noAlertsMsg : String := "✅ No critical environmental alerts at this time"

/-- What the alerts section renders: the list of error boxes, or the
single success box. -/
inductive AlertDisplay
  | errorsShown (msgs : List String)
  | successShown (msg : String)
deriving DecidableEq, Repr

/-- The rendering branch at app.py lines 310-314: a non-empty alert
list shows one error box per alert; an empty list shows the fixed
success message. -/
def renderAlerts : List String → AlertDisplay
  | [] => AlertDisplay.successShown noAlertsMsg
  | ms => AlertDisplay.errorsShown ms

/-- Domain of each alert message: PM2.5 and SO2 are air metrics, pH is
a water metric. -/
def alertDomain (m : String) : Option Domain :=
  if m == pmAlertMsg then some Domain.air
  else if m == phAlertMsg then some Domain.water
  else if m == so2AlertMsg then some Domain.air
  else none

/-- The store holds at least one reading of the given (domain, metric)
pair that breaches the pair's registry rule.  Only the three pairs the
registry covers can breach; every other pair has no rule. -/
def pairBreached (s : Store) (d : Domain) (m : Metric) : Bool :=
  match d, m with
  | Domain.air, Metric.pm25 => s.airData.any fun r => violatesRule pm25Rule r.pm25
  | Domain.air, Metric.so2 => s.airData.any fun r => violatesRule so2Rule r.so2
  | Domain.water, Metric.ph => s.waterData.any fun r => violatesRule phRule r.ph
  | _, _ => false

/-- No reading in the store breaches any registry rule. -/
def noBreach (s : Store) : Bool :=
  (s.airData.all fun r => !violatesRule pm25Rule r.pm25 && !violatesRule so2Rule r.so2) &&
  (s.waterData.all fun r => !violatesRule phRule r.ph)

/-- A rule is violated exactly when a set upper bound is exceeded or a
set lower bound is undercut. -/
theorem violatesRule_iff (r : ThresholdRule) (v : ℚ) :
    violatesRule r v = true ↔
      (∃ m, r.max = some m ∧ m < v) ∨ (∃ m, r.min = some m ∧ v < m) := by
  rcases r with ⟨mn, mx, sev⟩
  rcases mx with _ | b <;> rcases mn with _ | a <;>
    simp [violatesRule, exceedsMax, belowMin]

/-- Claim C1: classify returns Poor iff a rule exists and a set bound is
strictly violated, Good iff a rule exists and neither bound is violated
(equality with a bound is Good), and Unclassified iff no rule matches;
moreover classify agrees with the source's per-station PM2.5 check
(app.py line 219) and with its pH alert test (app.py line 183). -/
theorem classify_trichotomy (rule? : Option ThresholdRule) (v : ℚ) :
    (classify rule? v = Status.Poor ↔
      ∃ r, rule? = some r ∧
        ((∃ m, r.max = some m ∧ m < v) ∨ (∃ m, r.min = some m ∧ v < m)))
  ∧ (classify rule? v = Status.Good ↔
      ∃ r, rule? = some r ∧
        (∀ m, r.max = some m → v ≤ m) ∧ (∀ m, r.min = some m → m ≤ v))
  ∧ (classify rule? v = Status.Unclassified ↔ rule? = none)
  ∧ airStationStatus v = classify (some pm25Rule) v
  ∧ (phIsAlert v = true ↔ classify (some phRule) v = Status.Poor) := by
  refine ⟨?_, ?_, ?_, ?_, ?_⟩
  · rcases rule? with _ | r
    · simp [classify]
    · by_cases h : violatesRule r v = true
      · simp only [classify, h, if_true]
        simpa using (violatesRule_iff r v).mp h
      · simp only [classify, h, if_false, Bool.false_eq_true]
        simp only [Option.some.injEq]
        constructor
        · intro hc; exact absurd hc (by simp)
        · rintro ⟨r2, hr2, hb⟩
          subst hr2
          exact absurd ((violatesRule_iff _ v).mpr hb) h
  · rcases rule? with _ | r
    · simp [classify]
    · by_cases h : violatesRule r v = true
      · simp only [classify, h, if_true]
        constructor
        · intro hc; exact absurd hc (by simp)
        · rintro ⟨r2, hr2, hmax, hmin⟩
          injection hr2 with hr2; subst hr2
          rcases (violatesRule_iff r v).mp h with ⟨m, hm, hlt⟩ | ⟨m, hm, hlt⟩
          · exact absurd hlt (not_lt.mpr (hmax m hm))
          · exact absurd hlt (not_lt.mpr (hmin m hm))
      · simp only [classify, h, if_false, Bool.false_eq_true, true_iff]
        refine ⟨r, rfl, ?_, ?_⟩
        · intro m hm
          by_contra hlt
          exact h ((violatesRule_iff r v).mpr (Or.inl ⟨m, hm, not_le.mp hlt⟩))
        · intro m hm
          by_contra hlt
          exact h ((violatesRule_iff r v).mpr (Or.inr ⟨m, hm, not_le.mp hlt⟩))
  · rcases rule? with _ | r
    · simp [classify]
    · simp only [classify]
      split <;> simp
  · unfold airStationStatus classify violatesRule exceedsMax belowMin pm25Rule
    by_cases h : (35:ℚ) < v <;> simp [h]
  · unfold phIsAlert classify violatesRule exceedsMax belowMin phRule
    by_cases h1 : v < phMin <;> by_cases h2 : phMax < v <;>
      simp [h1, h2]

/-- Claim C2: for rates in [0,100] the banding loop assigns Compliant
iff the rate is at least 90, the middle tier iff it is in [75,90), and
NeedsImprovement iff it is below 75; a rate of exactly 90 is Compliant
and exactly 75 is the middle tier. -/
theorem compliance_band_boundaries (r : ℚ) (h0 : 0 ≤ r) (h1 : r ≤ 100) :
    (complianceBand r = Band.Compliant ↔ 90 ≤ r)
  ∧ (complianceBand r = Band.PartiallyCompliant ↔ 75 ≤ r ∧ r < 90)
  ∧ (complianceBand r = Band.NeedsImprovement ↔ r < 75)
  ∧ complianceBand 90 = Band.Compliant
  ∧ complianceBand 75 = Band.PartiallyCompliant := by
  refine ⟨?_, ?_, ?_, by decide, by decide⟩ <;>
    (unfold complianceBand; split_ifs with ha hb) <;>
    simp_all <;> linarith

/-- Witness for C2 at the boundary rate 90. -/
theorem compliance_band_boundaries_witness :
    complianceBand 90 = Band.Compliant :=
  (compliance_band_boundaries 90 (by decide) (by decide)).2.2.2.1

/-- Claim C8: the banding is monotone in the rate, in the order
NeedsImprovement < PartiallyCompliant < Compliant. -/
theorem compliance_band_monotone (r1 r2 : ℚ) (h : r1 ≤ r2) :
    bandRank (complianceBand r1) ≤ bandRank (complianceBand r2) := by
  unfold complianceBand
  split_ifs <;> first
    | decide
    | (exfalso; linarith)

/-- Witness for C8 at the rates 75 and 90. -/
theorem compliance_band_monotone_witness :
    bandRank (complianceBand 75) ≤ bandRank (complianceBand 90) :=
  compliance_band_monotone 75 90 (by decide)

/-- The PM2.5 rule reduces to the strict upper-bound test against 35. -/
theorem violates_pm25 (v : ℚ) : violatesRule pm25Rule v = decide (35 < v) := by
  simp [violatesRule, exceedsMax, belowMin, pm25Rule]

/-- The SO2 rule reduces to the strict upper-bound test against 20. -/
theorem violates_so2 (v : ℚ) : violatesRule so2Rule v = decide (20 < v) := by
  simp [violatesRule, exceedsMax, belowMin, so2Rule]

/-- The pH rule tests both the 8.5 upper and the 6.5 lower bound. -/
theorem violates_ph (v : ℚ) :
    violatesRule phRule v = (decide (phMax < v) || decide (v < phMin)) := by
  simp [violatesRule, exceedsMax, belowMin, phRule]

/-- Membership in the alert list: exactly the fired conditions appear. -/
theorem mem_evaluate_iff (s : Store) (m : String) :
    m ∈ evaluate s ↔
      (m = pmAlertMsg ∧ hasHighPM s = true) ∨
      (m = phAlertMsg ∧ hasLowPH s = true) ∨
      (m = so2AlertMsg ∧ hasHighSO2 s = true) := by
  cases h1 : hasHighPM s <;> cases h2 : hasLowPH s <;> cases h3 : hasHighSO2 s <;>
    simp [evaluate, h1, h2, h3]

/-- Water reading with pH 9, above the registry's 8.5 upper bound
(the dashboard checks only pH below 6.5 at app.py line 305). -/
def highPHReading : WaterReading := ⟨0, "Lake Central", 9, 6, 3, 6, 15, mkRat 1 20⟩

/-- Store whose only reading breaches the pH rule from above. -/
def highPHStore : Store := ⟨[], [highPHReading]⟩

/-- Claim C3 counterexample: the (water, pH) pair has a reading that
breaches its registry rule (pH 9 is above the 8.5 bound), yet evaluate
returns no alert at all, so the breach goes unreported. -/
theorem c3_unreported_breach :
    pairBreached highPHStore Domain.water Metric.ph = true
  ∧ evaluate highPHStore = [] := by
  constructor
  · decide
  · rfl

/-- Claim C3 (amended): evaluate reports only the three hard-coded
conditions — the PM2.5 alert iff some air reading has PM2.5 above 35,
the pH alert iff some water reading has pH below 6.5, the SO2 alert iff
some air reading has SO2 above 20 — and emits nothing else, so breaches
of other registered bounds (such as pH above 8.5) go unreported. -/
theorem evaluate_reports_only_checked (s : Store) :
    (pmAlertMsg ∈ evaluate s ↔ hasHighPM s = true)
  ∧ (phAlertMsg ∈ evaluate s ↔ hasLowPH s = true)
  ∧ (so2AlertMsg ∈ evaluate s ↔ hasHighSO2 s = true)
  ∧ (evaluate s).all
      (fun m => m == pmAlertMsg || m == phAlertMsg || m == so2AlertMsg) = true := by
  have hne1 : pmAlertMsg ≠ phAlertMsg := by decide
  have hne2 : pmAlertMsg ≠ so2AlertMsg := by decide
  have hne3 : phAlertMsg ≠ so2AlertMsg := by decide
  refine ⟨?_, ?_, ?_, ?_⟩
  · rw [mem_evaluate_iff]; simp [hne1, hne2]
  · rw [mem_evaluate_iff]; simp [hne1.symm, hne3]
  · rw [mem_evaluate_iff]; simp [hne2.symm, hne3.symm]
  · cases h1 : hasHighPM s <;> cases h2 : hasLowPH s <;> cases h3 : hasHighSO2 s <;>
      simp only [evaluate, h1, h2, h3] <;> decide

/-- Air reading for a site breaching PM2.5 (40 above the bound 35). -/
def siteAReading : AirReading := ⟨0, "SiteA", 40, 60, 10, 20, 30, 1⟩

/-- Air reading for a site within bounds (PM2.5 of 20). -/
def siteBReading : AirReading := ⟨0, "SiteB", 20, 40, 10, 20, 30, 1⟩

/-- Two air sites on the same date, one above and one below the PM2.5
bound. -/
def twoSiteStore : Store := ⟨[siteAReading, siteBReading], []⟩

/-- Claim C4: evaluate emits each alert message at most once however
many readings breach the corresponding pair, and the two-site scenario
(one PM2.5 above the bound, one below, same date) yields exactly one
air alert. -/
theorem evaluate_dedup_per_pair (s : Store) :
    (evaluate s).count pmAlertMsg ≤ 1
  ∧ (evaluate s).count phAlertMsg ≤ 1
  ∧ (evaluate s).count so2AlertMsg ≤ 1
  ∧ evaluate twoSiteStore = [pmAlertMsg] := by
  refine ⟨?_, ?_, ?_, by rfl⟩ <;>
    (cases h1 : hasHighPM s <;> cases h2 : hasLowPH s <;> cases h3 : hasHighSO2 s <;>
      simp only [evaluate, h1, h2, h3] <;> decide)

/-- Air reading whose only breach is SO2 (25 above 20; PM2.5 is 10). -/
def so2OnlyAir : AirReading := ⟨0, "North Zone", 10, 20, 25, 20, 30, 1⟩

/-- Water reading breaching the low pH bound (pH 6). -/
def lowPHWater : WaterReading := ⟨0, "Canal Industrial", 6, 6, 8, 15, 15, mkRat 1 20⟩

/-- Store with an SO2-only air breach and a low-pH water breach. -/
def mixedStore : Store := ⟨[so2OnlyAir], [lowPHWater]⟩

/-- Claim C5 counterexample: on a store with an SO2-only air breach and
a low-pH water breach, evaluate returns the water pH alert first and
the air SO2 alert second, so a water-domain alert precedes an
air-domain alert. -/
theorem c5_water_before_air :
    evaluate mixedStore = [phAlertMsg, so2AlertMsg]
  ∧ alertDomain phAlertMsg = some Domain.water
  ∧ alertDomain so2AlertMsg = some Domain.air := by
  refine ⟨by rfl, by rfl, by rfl⟩

/-- Claim C5 (amended): the alert list is always a subsequence of the
fixed sequence PM2.5 alert, pH alert, SO2 alert — the source's
hard-coded order air PM2.5, then water pH, then air SO2, which
interleaves the domains rather than grouping air before water. -/
theorem evaluate_fixed_order (s : Store) :
    List.Sublist (evaluate s) [pmAlertMsg, phAlertMsg, so2AlertMsg] := by
  have hcons : ∀ (b : Bool) (x : String), List.Sublist (if b then [x] else []) [x] := by
    intro b x
    cases b
    · simp
    · simp
  have happ := List.Sublist.append
    (List.Sublist.append (hcons (hasHighPM s) pmAlertMsg) (hcons (hasLowPH s) phAlertMsg))
    (hcons (hasHighSO2 s) so2AlertMsg)
  simpa [evaluate] using happ

/-- The store with no readings at all. -/
def emptyStore : Store := ⟨[], []⟩

/-- Claim C6: when no reading breaches any registry rule (the empty
store included), evaluate returns the empty alert list and the alerts
section renders the fixed positive no-alerts message, a constructor
distinct from the error display. -/
theorem evaluate_no_breach (s : Store) (h : noBreach s = true) :
    evaluate s = []
  ∧ renderAlerts (evaluate s) = AlertDisplay.successShown noAlertsMsg := by
  unfold noBreach at h
  rw [Bool.and_eq_true, List.all_eq_true, List.all_eq_true] at h
  have h1 : hasHighPM s = false := by
    unfold hasHighPM
    rw [List.any_eq_false]
    intro r hr
    have hx := h.1 r hr
    rw [Bool.and_eq_true, Bool.not_eq_true', violates_pm25] at hx
    simpa using hx.1
  have h2 : hasLowPH s = false := by
    unfold hasLowPH
    rw [List.any_eq_false]
    intro r hr
    have hx := h.2 r hr
    rw [Bool.not_eq_true', violates_ph, Bool.or_eq_false_iff] at hx
    simpa using hx.2
  have h3 : hasHighSO2 s = false := by
    unfold hasHighSO2
    rw [List.any_eq_false]
    intro r hr
    have hx := h.1 r hr
    rw [Bool.and_eq_true, Bool.not_eq_true', violates_so2] at hx
    simpa using hx.2
  constructor
  · simp [evaluate, h1, h2, h3]
  · simp [evaluate, h1, h2, h3, renderAlerts]

/-- Witness for C6 at the empty store. -/
theorem evaluate_no_breach_witness :
    evaluate emptyStore = []
  ∧ renderAlerts (evaluate emptyStore) = AlertDisplay.successShown noAlertsMsg :=
  evaluate_no_breach emptyStore (by decide)

/-- Claim C7: evaluate is deterministic and stateless: its output is a
function of the store contents alone, so two calls on identical
contents give identical alert lists, with nothing carried between
cycles. -/
theorem evaluate_deterministic (s1 s2 : Store)
    (ha : s1.airData = s2.airData) (hw : s1.waterData = s2.waterData) :
    evaluate s1 = evaluate s2 := by
  cases s1
  cases s2
  cases ha
  cases hw
  rfl

/-- Witness for C7: a second call on the unchanged two-site store gives
the same alerts. -/
theorem evaluate_deterministic_witness :
    evaluate twoSiteStore = evaluate twoSiteStore :=
  evaluate_deterministic twoSiteStore twoSiteStore rfl rfl

/-- Air reading at the Residential Area station breaching PM2.5. -/
def residentialHighPM : AirReading := ⟨0, "Residential Area", 50, 60, 10, 20, 30, 1⟩

/-- Air reading at the Industrial Area station breaching PM2.5. -/
def industrialHighPM : AirReading := ⟨1, "Industrial Area", 40, 70, 15, 20, 30, 1⟩

/-- Store whose only breach is a Residential Area PM2.5 reading. -/
def storeResidential : Store := ⟨[residentialHighPM], []⟩

/-- Store whose only breach is an Industrial Area PM2.5 reading. -/
def storeIndustrial : Store := ⟨[industrialHighPM], []⟩

/-- Claim C10: the alert list depends only on which of the three
hard-coded conditions fired, never on which site or reading triggered
them, and every emitted alert is one of the three fixed constant
strings whose site names are hard-coded. -/
theorem alerts_constant_messages (s1 s2 : Store)
    (h1 : hasHighPM s1 = hasHighPM s2) (h2 : hasLowPH s1 = hasLowPH s2)
    (h3 : hasHighSO2 s1 = hasHighSO2 s2) :
    evaluate s1 = evaluate s2
  ∧ (evaluate s1).all
      (fun m => m == pmAlertMsg || m == phAlertMsg || m == so2AlertMsg) = true := by
  constructor
  · unfold evaluate
    rw [h1, h2, h3]
  · cases ha : hasHighPM s1 <;> cases hb : hasLowPH s1 <;> cases hc : hasHighSO2 s1 <;>
      simp only [evaluate, ha, hb, hc] <;> decide

/-- Witness for C10: a Residential Area breach and an Industrial Area
breach produce the identical alert list, which names Industrial Area in
both cases. -/
theorem alerts_constant_messages_witness :
    evaluate storeResidential = evaluate storeIndustrial
  ∧ (evaluate storeResidential).all
      (fun m => m == pmAlertMsg || m == phAlertMsg || m == so2AlertMsg) = true :=
  alerts_constant_messages storeResidential storeIndustrial
    (by decide) (by decide) (by decide)

/-- The monitoring stations of the air-quality loop (app.py line 73). -/
def monitoringStations : List String :=
  ["North Zone", "South Zone", "Industrial Area", "Residential Area", "Commercial District"]

/-- Value a for-loop variable holds after iterating over a list: the
last element, or none when the list was empty. -/
def loopLast (xs : List String) : Option String :=
  xs.foldl (fun _ x => some x) none

/-- The needle occurs at the head of the haystack. -/
def listStartsWith : List Char → List Char → Bool
  | [], _ => true
  | _ :: _, [] => false
  | a :: as, b :: bs => a == b && listStartsWith as bs

/-- Python-style substring containment on character lists. -/
def containsSub (needle : List Char) : List Char → Bool
  | [] => needle.isEmpty
  | b :: bs => listStartsWith needle (b :: bs) || containsSub needle bs

/-- The station variable after the air-quality loops finish
(app.py lines 75-76): the loop variable keeps the last station. -/
def stationLeftover : String := (loopLast monitoringStations).getD ""

/-- Biodiversity base count (app.py lines 141-144): 50 when the string
Industrial occurs in the station variable, else 120. -/
def bioBaseCount (station : String) : Nat :=
  if containsSub "Industrial".data station.data then 50 else 120

/-- Base count used to generate the biodiversity record of a given date
and species: the branch at app.py line 141 reads the leftover station
variable, not anything derived from the record. -/
def bioBaseCountFor (date : Nat) (species : String) : Nat :=
  bioBaseCount stationLeftover

/-- Claim C9: after the air loop the station variable holds Commercial
District, the Industrial membership test on it is false (so the
50-count branch is unreachable), and the biodiversity base count is 120
for every date and species. -/
theorem bio_base_count_constant :
    loopLast monitoringStations = some "Commercial District"
  ∧ containsSub "Industrial".data stationLeftover.data = false
  ∧ ∀ (date : Nat) (species : String), bioBaseCountFor date species = 120 := by
  refine ⟨by rfl, by decide, ?_⟩
  intro date species
  show bioBaseCount stationLeftover = 120
  decide
